import Mathlib

/-!
# Verification of the hardhat end-to-end conformance-test harness

Shallow embedding of the e2e test suite (`src/unnamed/part_000`, a Mocha
"describe/it" file driving the `hardhat` binary through shelljs) and of the
harness design described in the specification.  The tool-under-test is opaque:
it is modelled as a deterministic map from a command line to a captured
`ProcessResult`; every theorem about a scenario quantifies over that map.
-/

namespace HardhatE2E

/-- Captured outcome of one `shell.exec` call: exit code, stdout and stderr
(the spec's `ProcessResult`, immutable once produced). -/
structure ProcessResult where
  code : Int
  stdout : String
  stderr : String

/-- The ambient world one fixture's scenarios run against: `exec` is the
behavior of `shell.exec` for a command line run inside the fixture instance
directory (the opaque tool-under-test), `existsSync` is `fsExtra.existsSync`,
and `testDirPath` is `this.testDirPath` provided by the `useFixture` helper. -/
structure Env where
  exec : String → ProcessResult
  existsSync : String → Bool
  testDirPath : String

/-- `path.join("node_modules", ".bin", "hardhat")` from line 10 of the suite
(POSIX separators; the Windows case is skipped by the suite itself). -/
def hardhatBinary : String := "node_modules/.bin/hardhat"

/-! ## Regular-expression patterns used by the suite

Each JS regex of the source is embedded as an executable matcher built from
three pieces: a literal piece, a greedy one-or-more-digits piece for a
backslash-d-plus, and a greedy optional character for a trailing question
mark.  Greediness is harmless here because in every pattern of the suite the
character after a digit run or an optional letter can never itself extend
that run. -/

/-- Strip an expected prefix from a character list, returning the rest. -/
def stripPfx : List Char → List Char → Option (List Char)
  | [], l => some l
  | _ :: _, [] => none
  | c :: cs, d :: ds => if c = d then stripPfx cs ds else none

/-- Match a literal piece of a regex at the head of the input. -/
def litM (t : String) (l : List Char) : Option (List Char) :=
  stripPfx t.toList l

/-- Match one or more decimal digits at the head of the input, greedily. -/
def digitsM : List Char → Option (List Char)
  | c :: rest => if c.isDigit then some (rest.dropWhile Char.isDigit) else none
  | [] => none

/-- Match an optional single character at the head of the input, greedily. -/
def optM (c : Char) : List Char → List Char
  | d :: rest => if d = c then rest else d :: rest
  | [] => []

/-- Unanchored search: does `p` accept at some position of the input? -/
def searchFrom (p : List Char → Bool) : List Char → Bool
  | [] => p []
  | c :: rest => p (c :: rest) || searchFrom p rest

/-- Unanchored purely literal regex (such as `/You are not inside/`,
`/2 passing/`, `/0 passing/`): matches iff the text contains the literal. -/
def containsPat (pat s : String) : Bool :=
  searchFrom (fun l => (litM pat l).isSome) s.toList

/-- `versionRegExp` (line 12): anchored digits dot digits dot digits
newline, end of string. -/
def versionMatch (s : String) : Bool :=
  match ((((digitsM s.toList).bind (litM ".")).bind digitsM).bind
      (litM ".")).bind digitsM with
  | none => false
  | some r =>
    match litM "\n" r with
    | some [] => true
    | _ => false

/-- The compile-success pattern of line 44 anchored at one position:
literal "Compiled ", a digit run, literal " Solidity file", an optional
"s", literal " successfully". -/
def compiledAt (l : List Char) : Bool :=
  ((((litM "Compiled " l).bind digitsM).bind
      (litM " Solidity file")).map (optM 's') |>.bind
      (litM " successfully")).isSome

/-- `/Compiled \d+ Solidity files? successfully/` (line 44), unanchored. -/
def compiledMatch (s : String) : Bool :=
  searchFrom compiledAt s.toList

/-- `/HH15?/` (line 241) anchored at one position: literal "HH1" then an
optional "5" (so it accepts both the HH1 and the HH15 diagnostic codes). -/
def hh15At (l : List Char) : Bool :=
  ((litM "HH1" l).map (optM '5')).isSome

/-- `/HH15?/` (line 241), unanchored. -/
def hh15Match (s : String) : Bool :=
  searchFrom hh15At s.toList

/-- `/You are not inside/` (line 240), unanchored literal. -/
def notInsideMatch (s : String) : Bool :=
  containsPat "You are not inside" s

/-! ## Scenario bodies as step lists

A scenario body (or hook) is embedded as the ordered list of observable
steps it performs: process invocations (with or without a per-call
environment override), chai assertions (already evaluated to the boolean
they assert, using the `Env`), shelljs mode switches (`shell.set("-e")` /
`shell.set("+e")`), and — so that the embedding can even express ambient
environment mutation and prove its absence — assignments to the ambient
process environment, which the suite never performs. -/

/-- One step of a scenario body or hook. -/
inductive Step where
  | exec (cmd : String)
  | execWithEnv (cmd : String) (extraEnv : List (String × String))
  | setEnvVar (key value : String)
  | assert (cond : Bool)
  | setFatal (fatal : Bool)

/-- Run a step list and decide whether the scenario passes.  `fatal` is the
shelljs `-e` mode: when it is set, an `exec` whose exit code is non-zero
throws and so fails the scenario (line 16: "Ensure that shell failures will
induce test failures"); a failed assertion always fails the scenario. -/
def runSteps (e : Env) : Bool → List Step → Bool
  | _, [] => true
  | fatal, Step.exec cmd :: rest =>
      (!fatal || (e.exec cmd).code == 0) && runSteps e fatal rest
  | fatal, Step.execWithEnv cmd _ :: rest =>
      (!fatal || (e.exec cmd).code == 0) && runSteps e fatal rest
  | fatal, Step.setEnvVar _ _ :: rest => runSteps e fatal rest
  | fatal, Step.assert cond :: rest => cond && runSteps e fatal rest
  | _, Step.setFatal v :: rest => runSteps e v rest

/-- Number of chai assertion calls a step list performs. -/
def countAsserts : List Step → Nat
  | [] => 0
  | Step.assert _ :: rest => countAsserts rest + 1
  | _ :: rest => countAsserts rest

/-- The shelljs fatal flag after executing a step list that started with the
flag equal to `fatal`. -/
def fatalAfter (fatal : Bool) : List Step → Bool
  | [] => fatal
  | Step.setFatal v :: rest => fatalAfter v rest
  | _ :: rest => fatalAfter fatal rest

/-- The sequence of process invocations of a step list, each paired with the
environment it runs under.  A per-call override (`shell.exec(cmd, {env:
{...process.env, KEY: v}})`) extends the ambient environment for that single
call only; only a `setEnvVar` assignment would change the ambient
environment for the following steps. -/
def invocations (ambient : List (String × String)) :
    List Step → List (String × List (String × String))
  | [] => []
  | Step.exec cmd :: rest => (cmd, ambient) :: invocations ambient rest
  | Step.execWithEnv cmd extra :: rest =>
      (cmd, ambient ++ extra) :: invocations ambient rest
  | Step.setEnvVar k v :: rest => invocations (ambient ++ [(k, v)]) rest
  | Step.assert _ :: rest => invocations ambient rest
  | Step.setFatal _ :: rest => invocations ambient rest

/-! ## The scenarios of the suite -/

/-- `it("should print the hardhat version")`, lines 22-26; the "no project"
group repeats the identical body at lines 228-232. -/
def versionScenario (e : Env) : List Step :=
  let r := e.exec (hardhatBinary ++ " --version")
  [Step.exec (hardhatBinary ++ " --version"),
   Step.assert (r.code == 0),
   Step.assert (versionMatch r.stdout)]

/-- `it("should compile")`, lines 28-49: clean, compile, check the artifacts
directory was created, check stdout, clean again. -/
def compileScenario (e : Env) : List Step :=
  let r1 := e.exec (hardhatBinary ++ " clean")
  let r2 := e.exec (hardhatBinary ++ " compile")
  let r3 := e.exec (hardhatBinary ++ " clean")
  [Step.exec (hardhatBinary ++ " clean"),
   Step.assert (r1.code == 0),
   Step.exec (hardhatBinary ++ " compile"),
   Step.assert (r2.code == 0),
   Step.assert (e.existsSync (e.testDirPath ++ "/artifacts")),
   Step.assert (compiledMatch r2.stdout),
   Step.exec (hardhatBinary ++ " clean"),
   Step.assert (r3.code == 0)]

/-- `it("should test programmatically")`, lines 51-76: clean, run the
multi-run test script, check a passing run is reported and no run reports
zero tests ("potential caching issue"), clean again. -/
def testProgrammaticallyScenario (e : Env) : List Step :=
  let r1 := e.exec (hardhatBinary ++ " clean")
  let r2 := e.exec (hardhatBinary ++ " run ./scripts/multi-run-test.js")
  let r3 := e.exec (hardhatBinary ++ " clean")
  [Step.exec (hardhatBinary ++ " clean"),
   Step.assert (r1.code == 0),
   Step.exec (hardhatBinary ++ " run ./scripts/multi-run-test.js"),
   Step.assert (r2.code == 0),
   Step.assert (containsPat "2 passing" r2.stdout),
   Step.assert (!containsPat "0 passing" r2.stdout),
   Step.exec (hardhatBinary ++ " clean"),
   Step.assert (r3.code == 0)]

/-- `it("the test task should accept test files")`, lines 78-94: clean, then
the test task once without and once with a leading "./" on the test file. -/
def testFilesScenario (e : Env) : List Step :=
  let r1 := e.exec (hardhatBinary ++ " clean")
  let r2 := e.exec (hardhatBinary ++ " test test/simple.js")
  let r3 := e.exec (hardhatBinary ++ " test ./test/simple.js")
  [Step.exec (hardhatBinary ++ " clean"),
   Step.assert (r1.code == 0),
   Step.exec (hardhatBinary ++ " test test/simple.js"),
   Step.assert (r2.code == 0),
   Step.exec (hardhatBinary ++ " test ./test/simple.js"),
   Step.assert (r3.code == 0)]

/-- `it("should run tests in parallel")`, lines 96-113: clean, run the test
task with `--parallel`, check a passing run is reported, clean again.  Note
that unlike the serial programmatic scenario this body has no
`assert.notMatch(stdout, /0 passing/)`. -/
def parallelScenario (e : Env) : List Step :=
  let r1 := e.exec (hardhatBinary ++ " clean")
  let r2 := e.exec (hardhatBinary ++ " test --parallel")
  let r3 := e.exec (hardhatBinary ++ " clean")
  [Step.exec (hardhatBinary ++ " clean"),
   Step.assert (r1.code == 0),
   Step.exec (hardhatBinary ++ " test --parallel"),
   Step.assert (r2.code == 0),
   Step.assert (containsPat "2 passing" r2.stdout),
   Step.exec (hardhatBinary ++ " clean"),
   Step.assert (r3.code == 0)]

/-- `it("should print an error message if you try to compile")`, lines
234-242, of the "no project" group: temporarily drop to tolerant shell mode,
run compile, restore strict mode, then assert exit code 1 and the two
stderr diagnostics. -/
def noProjectCompileScenario (e : Env) : List Step :=
  let r := e.exec (hardhatBinary ++ " compile")
  [Step.setFatal false,
   Step.exec (hardhatBinary ++ " compile"),
   Step.setFatal true,
   Step.assert (r.code == 1),
   Step.assert (notInsideMatch r.stderr),
   Step.assert (hh15Match r.stderr)]

/-- The body generated for one command-matrix entry (lines 151-153, 184-186
and 218-220): it launches the suggested command and nothing else — there is
no assertion call in the body. -/
def suggestedCommandScenario (cmd : String) : List Step :=
  [Step.exec cmd]

/-! ## The sample-project command matrices and generation hooks -/

/-- Suggested commands of the basic sample project, lines 143-150. -/
def basicSampleCommands : List String :=
  [hardhatBinary ++ " accounts",
   hardhatBinary ++ " compile",
   hardhatBinary ++ " test",
   "node scripts/sample-script.js"]

/-- Suggested commands of the advanced sample project, lines 169-183. -/
def advancedSampleCommands : List String :=
  [hardhatBinary ++ " compile",
   hardhatBinary ++ " test",
   hardhatBinary ++ " run scripts/deploy.js",
   "node scripts/deploy.js",
   "REPORT_GAS=true npx hardhat test",
   hardhatBinary ++ " coverage",
   "npx eslint \x27**/*.js\x27",
   "npx eslint \x27**/*.js\x27 --fix",
   "npx prettier \x27**/*.\x7bjson,sol,md\x7d\x27 --check",
   "npx solhint \x27contracts/**/*.sol\x27",
   "npx solhint \x27contracts/**/*.sol\x27 --fix"]

/-- Suggested commands of the advanced TypeScript sample project, lines
203-217. -/
def advancedTsSampleCommands : List String :=
  [hardhatBinary ++ " compile",
   hardhatBinary ++ " test",
   hardhatBinary ++ " run scripts/deploy.ts",
   "TS_NODE_FILES=true ts-node scripts/deploy.ts",
   "REPORT_GAS=true npx hardhat test",
   hardhatBinary ++ " coverage",
   "npx eslint \x27**/*.\x7bts,js\x7d\x27",
   "npx eslint \x27**/*.\x7bts,js\x7d\x27 --fix",
   "npx prettier \x27**/*.\x7bjson,sol,md\x7d\x27 --check",
   "npx solhint \x27contracts/**/*.sol\x27",
   "npx solhint \x27contracts/**/*.sol\x27 --fix"]

/-- The `before` hook of `describe("basic sample project")`, lines 134-141:
one invocation of the bare hardhat binary with a per-call environment that
spreads `process.env` and adds the use-defaults flag. -/
def basicSampleGenerationHook : List Step :=
  [Step.execWithEnv hardhatBinary
    [("HARDHAT_CREATE_BASIC_SAMPLE_PROJECT_WITH_DEFAULTS", "true")]]

/-- The `before` hook of `describe("advanced sample project")`, lines
160-167. -/
def advancedSampleGenerationHook : List Step :=
  [Step.execWithEnv hardhatBinary
    [("HARDHAT_CREATE_ADVANCED_SAMPLE_PROJECT_WITH_DEFAULTS", "true")]]

/-- The `before` hook of `describe("advanced TypeScript sample project")`,
lines 193-201. -/
def advancedTsSampleGenerationHook : List Step :=
  [Step.execWithEnv hardhatBinary
    [("HARDHAT_CREATE_ADVANCED_TYPESCRIPT_SAMPLE_PROJECT_WITH_DEFAULTS",
      "true")]]

/-- All steps a sample-project group performs, in declaration order: the
generation hook, then each suggested-command scenario body. -/
def sampleGroupSteps (gen : List Step) (cmds : List String) : List Step :=
  gen ++ (cmds.map suggestedCommandScenario).flatten

/-! ## The whole suite in declaration order

For the shell-mode invariant the suite is flattened to its ordered sequence
of hook and scenario-body step blocks, exactly as Mocha executes it on a
non-Windows host (on Windows the sample-project groups are skipped, which
removes blocks that never touch the shell mode anyway).  `useFixture` and
the sample-projects skip hook perform no shell-mode or exec steps, so they
contribute empty step lists. -/

/-- Kind of an executed block: a hook or a scenario body. -/
inductive BlockKind where
  | hook
  | body

/-- One executed block of the suite: its kind, the Mocha description, and
the steps it performs. -/
structure Block where
  kind : BlockKind
  label : String
  steps : List Step

/-- The root `before` hook, lines 15-17: `shell.set("-e")`. -/
def rootBeforeHook : List Step := [Step.setFatal true]

/-- The whole `describe("e2e tests")` suite in declaration order.  `eB` is
the behavior of the basic-project fixture, `eNP` of the empty "no project"
fixture (the suggested-command bodies consult no `Env`). -/
def e2eSuiteBlocks (eB eNP : Env) : List Block :=
  [⟨BlockKind.hook, "e2e tests", rootBeforeHook⟩,
   ⟨BlockKind.body, "should print the hardhat version", versionScenario eB⟩,
   ⟨BlockKind.body, "should compile", compileScenario eB⟩,
   ⟨BlockKind.body, "should test programmatically",
     testProgrammaticallyScenario eB⟩,
   ⟨BlockKind.body, "the test task should accept test files",
     testFilesScenario eB⟩,
   ⟨BlockKind.body, "should run tests in parallel", parallelScenario eB⟩,
   ⟨BlockKind.hook, "basic sample project", basicSampleGenerationHook⟩] ++
  (basicSampleCommands.map fun c =>
    ⟨BlockKind.body,
     "should permit successful execution of the suggested command " ++ c,
     suggestedCommandScenario c⟩) ++
  [⟨BlockKind.hook, "advanced sample project", advancedSampleGenerationHook⟩] ++
  (advancedSampleCommands.map fun c =>
    ⟨BlockKind.body,
     "should permit successful execution of the suggested command " ++ c,
     suggestedCommandScenario c⟩) ++
  [⟨BlockKind.hook, "advanced TypeScript sample project",
     advancedTsSampleGenerationHook⟩] ++
  (advancedTsSampleCommands.map fun c =>
    ⟨BlockKind.body,
     "should permit successful execution of the suggested command " ++ c,
     suggestedCommandScenario c⟩) ++
  [⟨BlockKind.body, "no project: should print the hardhat version",
     versionScenario eNP⟩,
   ⟨BlockKind.body, "no project: should print an error message if you try to compile",
     noProjectCompileScenario eNP⟩]

/-- The shelljs fatal flag observed at the start of each scenario body, in
suite order, threading the flag through every hook and body. -/
def bodyStartFatals (fatal : Bool) : List Block → List Bool
  | [] => []
  | b :: rest =>
    match b.kind with
    | BlockKind.body => fatal :: bodyStartFatals (fatalAfter fatal b.steps) rest
    | BlockKind.hook => bodyStartFatals (fatalAfter fatal b.steps) rest

/-! ## The ScenarioTree (modelled from the spec)

The describe/it tree itself is executed by Mocha, which is an external
collaborator and not part of the sources; the spec remodels it as an
explicit `ScenarioGroup`/`Scenario` tree with a pre-evaluated `skipIf`
predicate per node, interpreted by an explicit traversal. -/

/-- Modelled from the spec: a node of the harness ScenarioTree — a leaf
`Scenario` with description, pre-evaluated `skipIf` predicate and body, or
a `ScenarioGroup` with name, `skipIf`, before-hooks, after-hooks and
ordered children.  (The Mocha implementation of the tree is not under
src/.) -/
inductive STree where
  | scenario (description : String) (skipIf : Bool) (body : List Step)
  | group (name : String) (skipIf : Bool)
      (beforeHooks afterHooks : List (List Step)) (children : List STree)

/-- Observable event of a tree traversal. -/
inductive Event where
  | hookRun (group : String)
  | bodyRun (description : String)
  | skippedMark (label : String)
deriving DecidableEq

/-- Is the event an actual execution (a hook or a body), as opposed to the
mark left by a skipped node? -/
def eventIsExecution : Event → Bool
  | Event.hookRun _ => true
  | Event.bodyRun _ => true
  | Event.skippedMark _ => false

/-- The description of a leaf, or the name of a group. -/
def labelOf : STree → String
  | STree.scenario d _ _ => d
  | STree.group n _ _ _ _ => n

/-- The node's `skipIf` predicate, already evaluated. -/
def skipIfOf : STree → Bool
  | STree.scenario _ sk _ => sk
  | STree.group _ sk _ _ _ => sk

mutual

/-- Modelled from the spec: the explicit depth-first interpreter of the
ScenarioTree.  `skipIf` is evaluated before a node runs; if it is true the
state becomes Skipped and no hooks or body of the subtree execute.
Otherwise a group runs its before-hooks, its children in declaration
order, then its after-hooks. -/
def runTree : STree → List Event
  | STree.scenario d sk _ =>
      if sk then [Event.skippedMark d] else [Event.bodyRun d]
  | STree.group n sk bh ah children =>
      if sk then [Event.skippedMark n]
      else (bh.map fun _ => Event.hookRun n) ++ runForest children ++
        (ah.map fun _ => Event.hookRun n)

/-- Interpret a forest of children in declaration order. -/
def runForest : List STree → List Event
  | [] => []
  | t :: ts => runTree t ++ runForest ts

end

/-- The `describe("sample projects")` subtree, lines 116-223, as a
ScenarioTree: the group skips when the operating-system type is
"Windows_NT" (the `before` hook of lines 124-129), and otherwise holds the
three sample-project groups, each with its generation hook and one scenario
per suggested command. -/
def sampleProjectsTree (osType : String) : STree :=
  STree.group "sample projects" (osType == "Windows_NT") [] []
    [STree.group "basic sample project" false
      [basicSampleGenerationHook] []
      (basicSampleCommands.map fun c =>
        STree.scenario
          ("should permit successful execution of the suggested command " ++ c)
          false (suggestedCommandScenario c)),
     STree.group "advanced sample project" false
      [advancedSampleGenerationHook] []
      (advancedSampleCommands.map fun c =>
        STree.scenario
          ("should permit successful execution of the suggested command " ++ c)
          false (suggestedCommandScenario c)),
     STree.group "advanced TypeScript sample project" false
      [advancedTsSampleGenerationHook] []
      (advancedTsSampleCommands.map fun c =>
        STree.scenario
          ("should permit successful execution of the suggested command " ++ c)
          false (suggestedCommandScenario c))]

/-! ## The ProcessRunner (modelled from the spec)

Process spawning is done by shelljs, an external collaborator; the spec
remodels the strict/tolerant dichotomy as an explicit per-call
`tolerateNonZeroExit` flag on a `run` contract. -/

/-- Modelled from the spec: the ProcessRunner failure conditions.  (The
process-spawning layer is the shelljs library, not under src/.) -/
inductive RunFailure where
  | CommandFailed (stdout stderr : String)
  | LaunchFailed
  | AbnormalTermination

/-- Modelled from the spec: the outcome of `ProcessRunner.run` once the
spawned process has produced a raw `ProcessResult`.  If the exit code is
non-zero and `tolerateNonZeroExit` is false the call fails with
`CommandFailed` carrying the captured stdout/stderr; otherwise the result
is returned normally for the caller to assert on. -/
def runOutcome (result : ProcessResult) (tolerateNonZeroExit : Bool) :
    Except RunFailure ProcessResult :=
  if result.code ≠ 0 ∧ tolerateNonZeroExit = false then
    Except.error (RunFailure.CommandFailed result.stdout result.stderr)
  else Except.ok result

/-! ## Concrete tool behaviors for evaluating the scenarios -/

/-- A concrete tool behavior on which every scenario of the suite passes:
compile prints a compiled-files message, version prints one semantic
version line, every other command reports one passing pair of tests. -/
def happyEnv : Env where
  exec := fun cmd =>
    if cmd = hardhatBinary ++ " compile" then
      ⟨0, "Compiled 2 Solidity files successfully\n", ""⟩
    else if cmd = hardhatBinary ++ " --version" then
      ⟨0, "2.9.9\n", ""⟩
    else
      ⟨0, "  2 passing (1s)\n", ""⟩
  existsSync := fun _ => true
  testDirPath := "/tmp/fixture"

/-- A concrete tool behavior for the empty "no project" fixture: version
still works, every project command fails with the HH1 diagnostic. -/
def noProjectEnv : Env where
  exec := fun cmd =>
    if cmd = hardhatBinary ++ " --version" then
      ⟨0, "2.9.9\n", ""⟩
    else
      ⟨1, "", "Error HH1: You are not inside a Hardhat project\n"⟩
  existsSync := fun _ => false
  testDirPath := "/tmp/empty"

/-- A concrete tool behavior exhibiting the stale-cache symptom only in
parallel mode: the parallel test run reports a run with 0 passing tests
before the run with 2, while every serial command reports 2 passing. -/
def staleParallelEnv : Env where
  exec := fun cmd =>
    if cmd = hardhatBinary ++ " test --parallel" then
      ⟨0, "  0 passing (0s)\n  2 passing (1s)\n", ""⟩
    else
      ⟨0, "  2 passing (1s)\n", ""⟩
  existsSync := fun _ => true
  testDirPath := "/tmp/fixture"

/-- A concrete tool behavior where every command fails with exit code 1. -/
def failingEnv : Env where
  exec := fun _ => ⟨1, "out", "err"⟩
  existsSync := fun _ => false
  testDirPath := "/tmp/fixture"

/-! ## The claims -/

/-- C1, counterexample: under the tool behavior `staleParallelEnv` the
serial programmatic scenario and the parallel scenario both pass, yet the
parallel run's stdout matches /0 passing/ — so it is not true that a
passing pair of runs guarantees that no run's stdout matches "0 passing":
the parallel scenario never asserts the absence of "0 passing". -/
theorem parallel_zero_passing_counterexample :
    runSteps staleParallelEnv true
      (testProgrammaticallyScenario staleParallelEnv) = true ∧
    runSteps staleParallelEnv true
      (parallelScenario staleParallelEnv) = true ∧
    containsPat "0 passing"
      (staleParallelEnv.exec (hardhatBinary ++ " test --parallel")).stdout
      = true :=
  ⟨by decide, by decide, by decide⟩

/-- C1, amended: when the serial programmatic scenario and the parallel
scenario both pass, both runs (each after a clean that exited 0) exited 0
and both stdouts match the same /2 passing/ count, and the serial run's
stdout does not match /0 passing/; only the serial scenario asserts the
absence of a zero-passing run. -/
theorem parallel_and_serial_report_two_passing (e : Env)
    (hs : runSteps e true (testProgrammaticallyScenario e) = true)
    (hp : runSteps e true (parallelScenario e) = true) :
    (e.exec (hardhatBinary ++ " clean")).code = 0 ∧
    (e.exec (hardhatBinary ++ " run ./scripts/multi-run-test.js")).code = 0 ∧
    containsPat "2 passing"
      (e.exec (hardhatBinary ++ " run ./scripts/multi-run-test.js")).stdout
      = true ∧
    containsPat "0 passing"
      (e.exec (hardhatBinary ++ " run ./scripts/multi-run-test.js")).stdout
      = false ∧
    (e.exec (hardhatBinary ++ " test --parallel")).code = 0 ∧
    containsPat "2 passing"
      (e.exec (hardhatBinary ++ " test --parallel")).stdout = true := by
  simp only [testProgrammaticallyScenario, runSteps, Bool.not_true,
    Bool.false_or, Bool.and_eq_true, beq_iff_eq, Bool.not_eq_true'] at hs
  simp only [parallelScenario, runSteps, Bool.not_true, Bool.false_or,
    Bool.and_eq_true, beq_iff_eq] at hp
  exact ⟨hs.1, hs.2.2.1, hs.2.2.2.2.1, hs.2.2.2.2.2.1, hp.2.2.1,
    hp.2.2.2.2.1⟩

/-- C1, witness for the amended theorem at the concrete behavior
`happyEnv`. -/
theorem parallel_and_serial_report_two_passing_witness :
    runSteps happyEnv true (testProgrammaticallyScenario happyEnv) = true ∧
    runSteps happyEnv true (parallelScenario happyEnv) = true ∧
    ((happyEnv.exec (hardhatBinary ++ " clean")).code = 0 ∧
     (happyEnv.exec (hardhatBinary ++ " run ./scripts/multi-run-test.js")).code
       = 0 ∧
     containsPat "2 passing"
       (happyEnv.exec (hardhatBinary ++ " run ./scripts/multi-run-test.js")).stdout
       = true ∧
     containsPat "0 passing"
       (happyEnv.exec (hardhatBinary ++ " run ./scripts/multi-run-test.js")).stdout
       = false ∧
     (happyEnv.exec (hardhatBinary ++ " test --parallel")).code = 0 ∧
     containsPat "2 passing"
       (happyEnv.exec (hardhatBinary ++ " test --parallel")).stdout = true) :=
  ⟨by decide, by decide,
   parallel_and_serial_report_two_passing happyEnv (by decide) (by decide)⟩

/-- C2, counterexample: the scenario generated for the first basic-sample
suggested command contains zero assertion calls, and under the behavior
`happyEnv` it passes — a scenario passing without a single assertion call
evaluating true, contradicting the claim that every command-matrix
scenario asserts on its command's exit code. -/
theorem suggested_command_no_assertion_counterexample :
    countAsserts (suggestedCommandScenario (hardhatBinary ++ " accounts"))
      = 0 ∧
    runSteps happyEnv true
      (suggestedCommandScenario (hardhatBinary ++ " accounts")) = true :=
  ⟨rfl, by decide⟩

/-- C2, amended: every command-matrix scenario body merely launches its
command and contains no assertion call; under the strict shell mode
installed by the suite's root hook it passes exactly when the command
exits 0, so a failing suggested command fails the scenario through the
fail-fast shell mode rather than through an assertion. -/
theorem suggested_command_scenario_shape (cmd : String) (e : Env) :
    countAsserts (suggestedCommandScenario cmd) = 0 ∧
    (runSteps e true (suggestedCommandScenario cmd) = true ↔
      (e.exec cmd).code = 0) := by
  refine ⟨rfl, ?_⟩
  simp [suggestedCommandScenario, runSteps]

/-- C3 (the process-spawning layer is shelljs, modelled from the spec):
a result with non-zero exit code under tolerateNonZeroExit=false fails
with CommandFailed carrying the captured stdout/stderr, while under
tolerateNonZeroExit=true it is returned normally; correspondingly, in the
suite a strict-mode (-e) exec of a failing command fails the scenario on
the spot, and a tolerant-mode (+e) exec returns the result and lets the
rest of the body run. -/
theorem tolerate_non_zero_exit_semantics (r : ProcessResult) (e : Env)
    (cmd : String) (rest : List Step) (hr : r.code ≠ 0)
    (he : e.exec cmd = r) :
    runOutcome r false =
      Except.error (RunFailure.CommandFailed r.stdout r.stderr) ∧
    runOutcome r true = Except.ok r ∧
    runSteps e true (Step.exec cmd :: rest) = false ∧
    runSteps e false (Step.exec cmd :: rest) = runSteps e false rest := by
  refine ⟨by simp [runOutcome, hr], by simp [runOutcome], ?_, ?_⟩
  · simp [runSteps, he, hr]
  · simp [runSteps]

/-- C3, witness at the concrete behavior `failingEnv` and the result
⟨1, "out", "err"⟩. -/
theorem tolerate_non_zero_exit_semantics_witness :
    (ProcessResult.mk 1 "out" "err").code ≠ 0 ∧
    failingEnv.exec (hardhatBinary ++ " compile") =
      ProcessResult.mk 1 "out" "err" ∧
    (runOutcome (ProcessResult.mk 1 "out" "err") false =
      Except.error (RunFailure.CommandFailed "out" "err") ∧
     runOutcome (ProcessResult.mk 1 "out" "err") true =
      Except.ok (ProcessResult.mk 1 "out" "err") ∧
     runSteps failingEnv true
       (Step.exec (hardhatBinary ++ " compile") :: []) = false ∧
     runSteps failingEnv false
       (Step.exec (hardhatBinary ++ " compile") :: []) =
       runSteps failingEnv false []) :=
  ⟨by decide, rfl,
   tolerate_non_zero_exit_semantics (ProcessResult.mk 1 "out" "err")
     failingEnv (hardhatBinary ++ " compile") [] (by decide) rfl⟩

/-- C4: whenever the no-project compile scenario passes, the compile
invocation exited with code 1 and its stderr matches both the
"You are not inside" message pattern and the /HH15?/ diagnostic-code
pattern. -/
theorem no_project_compile_diagnostics (e : Env)
    (h : runSteps e true (noProjectCompileScenario e) = true) :
    (e.exec (hardhatBinary ++ " compile")).code = 1 ∧
    notInsideMatch (e.exec (hardhatBinary ++ " compile")).stderr = true ∧
    hh15Match (e.exec (hardhatBinary ++ " compile")).stderr = true := by
  simp only [noProjectCompileScenario, runSteps, Bool.not_false, Bool.true_or,
    Bool.true_and, Bool.and_eq_true, beq_iff_eq] at h
  exact ⟨h.1, h.2.1, h.2.2.1⟩

/-- C4, witness at the concrete behavior `noProjectEnv`. -/
theorem no_project_compile_diagnostics_witness :
    runSteps noProjectEnv true (noProjectCompileScenario noProjectEnv)
      = true ∧
    ((noProjectEnv.exec (hardhatBinary ++ " compile")).code = 1 ∧
     notInsideMatch (noProjectEnv.exec (hardhatBinary ++ " compile")).stderr
       = true ∧
     hh15Match (noProjectEnv.exec (hardhatBinary ++ " compile")).stderr
       = true) :=
  ⟨by decide, no_project_compile_diagnostics noProjectEnv (by decide)⟩

/-- C5 (the describe/it tree is executed by Mocha, modelled from the spec):
a node whose skipIf predicate evaluates true produces only its Skipped
mark — no before-hook, after-hook or body anywhere in the subtree
executes. -/
theorem skipped_subtree_executes_nothing (t : STree)
    (h : skipIfOf t = true) :
    runTree t = [Event.skippedMark (labelOf t)] ∧
    (runTree t).countP (fun ev => eventIsExecution ev) = 0 := by
  cases t with
  | scenario d sk b =>
    simp only [skipIfOf] at h
    subst h
    simp [runTree, labelOf, eventIsExecution]
  | group n sk bh ah cs =>
    simp only [skipIfOf] at h
    subst h
    simp [runTree, labelOf, eventIsExecution]

/-- C5, witness: the "sample projects" subtree with the operating-system
type of a Windows host skips as a whole and executes nothing. -/
theorem skipped_subtree_executes_nothing_witness :
    skipIfOf (sampleProjectsTree "Windows_NT") = true ∧
    (runTree (sampleProjectsTree "Windows_NT") =
      [Event.skippedMark (labelOf (sampleProjectsTree "Windows_NT"))] ∧
     (runTree (sampleProjectsTree "Windows_NT")).countP
       (fun ev => eventIsExecution ev) = 0) :=
  ⟨by decide,
   skipped_subtree_executes_nothing (sampleProjectsTree "Windows_NT")
     (by decide)⟩

/-- C6: whenever the basic-project compile scenario passes, the clean and
compile invocations exited 0, the compile stdout matches the
/Compiled \d+ Solidity files? successfully/ pattern, and the artifacts
directory exists under the fixture instance path. -/
theorem clean_compile_artifacts (e : Env)
    (h : runSteps e true (compileScenario e) = true) :
    (e.exec (hardhatBinary ++ " clean")).code = 0 ∧
    (e.exec (hardhatBinary ++ " compile")).code = 0 ∧
    compiledMatch (e.exec (hardhatBinary ++ " compile")).stdout = true ∧
    e.existsSync (e.testDirPath ++ "/artifacts") = true := by
  simp only [compileScenario, runSteps, Bool.not_true, Bool.false_or,
    Bool.and_eq_true, beq_iff_eq] at h
  exact ⟨h.1, h.2.2.1, h.2.2.2.2.2.1, h.2.2.2.2.1⟩

/-- C6, witness at the concrete behavior `happyEnv`. -/
theorem clean_compile_artifacts_witness :
    runSteps happyEnv true (compileScenario happyEnv) = true ∧
    ((happyEnv.exec (hardhatBinary ++ " clean")).code = 0 ∧
     (happyEnv.exec (hardhatBinary ++ " compile")).code = 0 ∧
     compiledMatch (happyEnv.exec (hardhatBinary ++ " compile")).stdout
       = true ∧
     happyEnv.existsSync (happyEnv.testDirPath ++ "/artifacts") = true) :=
  ⟨by decide, clean_compile_artifacts happyEnv (by decide)⟩

/-- C7: with any ambient process environment, the basic and the advanced
sample-project groups perform exactly one invocation carrying the
use-defaults override — the generation call of the before hook — and
every subsequent suggested command of the group runs with the ambient
environment unchanged by the generation step. -/
theorem generation_env_override_scoped (ambient : List (String × String)) :
    invocations ambient
        (sampleGroupSteps basicSampleGenerationHook basicSampleCommands) =
      (hardhatBinary, ambient ++
        [("HARDHAT_CREATE_BASIC_SAMPLE_PROJECT_WITH_DEFAULTS", "true")]) ::
        basicSampleCommands.map (fun c => (c, ambient)) ∧
    invocations ambient
        (sampleGroupSteps advancedSampleGenerationHook
          advancedSampleCommands) =
      (hardhatBinary, ambient ++
        [("HARDHAT_CREATE_ADVANCED_SAMPLE_PROJECT_WITH_DEFAULTS", "true")]) ::
        advancedSampleCommands.map (fun c => (c, ambient)) ∧
    invocations ambient
        (sampleGroupSteps advancedTsSampleGenerationHook
          advancedTsSampleCommands) =
      (hardhatBinary, ambient ++
        [("HARDHAT_CREATE_ADVANCED_TYPESCRIPT_SAMPLE_PROJECT_WITH_DEFAULTS",
          "true")]) ::
        advancedTsSampleCommands.map (fun c => (c, ambient)) :=
  ⟨rfl, rfl, rfl⟩

/-- C8: whenever the version scenario passes in the basic-project fixture
and its identical copy passes in the empty no-project fixture, both
invocations exited 0 and both stdouts match the anchored semantic-version
pattern (one version line and nothing else). -/
theorem version_line_in_and_out_of_project (e eNP : Env)
    (h : runSteps e true (versionScenario e) = true)
    (hnp : runSteps eNP true (versionScenario eNP) = true) :
    (e.exec (hardhatBinary ++ " --version")).code = 0 ∧
    versionMatch (e.exec (hardhatBinary ++ " --version")).stdout = true ∧
    (eNP.exec (hardhatBinary ++ " --version")).code = 0 ∧
    versionMatch (eNP.exec (hardhatBinary ++ " --version")).stdout = true := by
  simp only [versionScenario, runSteps, Bool.not_true, Bool.false_or,
    Bool.and_eq_true, beq_iff_eq] at h hnp
  exact ⟨h.1, h.2.2.1, hnp.1, hnp.2.2.1⟩

/-- C8, witness at the concrete behaviors `happyEnv` and `noProjectEnv`. -/
theorem version_line_in_and_out_of_project_witness :
    runSteps happyEnv true (versionScenario happyEnv) = true ∧
    runSteps noProjectEnv true (versionScenario noProjectEnv) = true ∧
    ((happyEnv.exec (hardhatBinary ++ " --version")).code = 0 ∧
     versionMatch (happyEnv.exec (hardhatBinary ++ " --version")).stdout
       = true ∧
     (noProjectEnv.exec (hardhatBinary ++ " --version")).code = 0 ∧
     versionMatch (noProjectEnv.exec (hardhatBinary ++ " --version")).stdout
       = true) :=
  ⟨by decide, by decide,
   version_line_in_and_out_of_project happyEnv noProjectEnv (by decide)
     (by decide)⟩

/-- C9: threading the shelljs fatal flag through every hook and scenario
body of the suite in declaration order, from any initial flag value and
any tool behavior, strict fail-fast mode is in effect at the start of
every scenario body: the root hook sets -e once, and the tolerant +e
window opened inside the no-project compile scenario is closed by the
same body. -/
theorem strict_mode_at_every_body_start (b : Bool) (eB eNP : Env) :
    (bodyStartFatals b (e2eSuiteBlocks eB eNP)).all (fun x => x) = true :=
  rfl

/-- C10: whenever the test-files scenario passes, the clean exited 0 and
the test task exited 0 both for the plain relative test-file argument and
for the same argument with a leading "./". -/
theorem test_file_path_with_and_without_dot_slash (e : Env)
    (h : runSteps e true (testFilesScenario e) = true) :
    (e.exec (hardhatBinary ++ " clean")).code = 0 ∧
    (e.exec (hardhatBinary ++ " test test/simple.js")).code = 0 ∧
    (e.exec (hardhatBinary ++ " test ./test/simple.js")).code = 0 := by
  simp only [testFilesScenario, runSteps, Bool.not_true, Bool.false_or,
    Bool.and_eq_true, beq_iff_eq] at h
  exact ⟨h.1, h.2.2.1, h.2.2.2.2.1⟩

/-- C10, witness at the concrete behavior `happyEnv`. -/
theorem test_file_path_with_and_without_dot_slash_witness :
    runSteps happyEnv true (testFilesScenario happyEnv) = true ∧
    ((happyEnv.exec (hardhatBinary ++ " clean")).code = 0 ∧
     (happyEnv.exec (hardhatBinary ++ " test test/simple.js")).code = 0 ∧
     (happyEnv.exec (hardhatBinary ++ " test ./test/simple.js")).code = 0) :=
  ⟨by decide, test_file_path_with_and_without_dot_slash happyEnv (by decide)⟩

end HardhatE2E
